import Mathlib

/-!
Verification of the access-control core of the express-crud-api repository.

The routes in `src/routes/{tasks,projects,categories,auth}.js` (the projects
file also carries the users router) are embedded shallowly: the database is a
record of lists of rows, each route handler is a pure function from the
database, the authenticated actor and the request data to a result tag plus
the successor database.  SQL queries are translated clause by clause
(`LEFT JOIN` becomes an `Option`-valued lookup, `WHERE` becomes `List.filter`
or `List.find?`).  File-bytes persistence and pagination/search string
building are out of scope of the specification and are not modelled.
-/

inductive Role where
  | admin
  | manager
  | user
deriving DecidableEq, Repr

structure Actor where
  id : Nat
  role : Role
deriving DecidableEq, Repr

structure UserRow where
  id : Nat
  name : String
  email : String
  password : String
  role : Role
  is_active : Bool
deriving DecidableEq, Repr

structure ProjectRow where
  id : Nat
  name : String
  description : String
  status : String
  priority : String
  start_date : Option Nat
  end_date : Option Nat
  budget : Option Nat
  created_by : Nat
deriving DecidableEq, Repr

structure TaskRow where
  id : Nat
  title : String
  description : String
  project_id : Nat
  assigned_to : Option Nat
  category_id : Option Nat
  status : String
  priority : String
  due_date : Option Nat
  estimated_hours : Option Nat
  created_by : Nat
deriving DecidableEq, Repr

structure CategoryRow where
  id : Nat
  name : String
  description : String
  color : String
deriving DecidableEq, Repr

structure DB where
  users : List UserRow
  projects : List ProjectRow
  tasks : List TaskRow
  categories : List CategoryRow
deriving DecidableEq, Repr

def findUser (db : DB) (i : Nat) : Option UserRow :=
  db.users.find? (fun u => u.id == i)

def findProject (db : DB) (i : Nat) : Option ProjectRow :=
  db.projects.find? (fun p => p.id == i)

def findTask (db : DB) (i : Nat) : Option TaskRow :=
  db.tasks.find? (fun t => t.id == i)

def findCategory (db : DB) (i : Nat) : Option CategoryRow :=
  db.categories.find? (fun c => c.id == i)

/-- `SELECT id FROM users WHERE id = ? AND is_active = 1` (tasks.js reference check). -/
def findActiveUser (db : DB) (i : Nat) : Option UserRow :=
  db.users.find? (fun u => u.id == i && u.is_active)

/-- The `p.created_by as project_owner` column produced by
`LEFT JOIN projects p ON t.project_id = p.id`: `none` models SQL NULL. -/
def taskProjectOwner (db : DB) (t : TaskRow) : Option Nat :=
  (findProject db t.project_id).map (fun p => p.created_by)

/-- Outcome tag of a route handler: `ok` = 2xx, `notFound` = 404,
`forbidden` = 403, `badRequest` = 400. -/
inductive RouteResult where
  | ok
  | notFound
  | forbidden
  | badRequest
deriving DecidableEq, Repr

/-! ## Task routes (src/routes/tasks.js) -/

/-- The `canEdit`/`canUpload` boolean of tasks.js (PUT /:id line 280,
PATCH /:id/status line 385, POST /:id/upload line 489). -/
def canEditTask (db : DB) (a : Actor) (t : TaskRow) : Bool :=
  a.role == .admin || t.created_by == a.id || t.assigned_to == some a.id ||
    taskProjectOwner db t == some a.id

/-- The `canDelete` boolean of tasks.js DELETE /:id (line 436): the assignee
relation is absent. -/
def canDeleteTask (db : DB) (a : Actor) (t : TaskRow) : Bool :=
  a.role == .admin || t.created_by == a.id || taskProjectOwner db t == some a.id

structure TaskBody where
  title : String
  description : String
  project_id : Nat
  assigned_to : Option Nat
  category_id : Option Nat
  status : String
  priority : String
  due_date : Option Nat
  estimated_hours : Option Nat
deriving DecidableEq, Repr

/-- The column list of the `UPDATE tasks SET ...` statement (tasks.js
lines 323-328): every body field is written, `id` and `created_by` are not. -/
def applyTaskUpdate (t : TaskRow) (b : TaskBody) : TaskRow :=
  { t with
    title := b.title
    description := b.description
    project_id := b.project_id
    assigned_to := b.assigned_to
    category_id := b.category_id
    status := b.status
    priority := b.priority
    due_date := b.due_date
    estimated_hours := b.estimated_hours }

/-- Whether the body's `assigned_to`, when present, fails the
`WHERE id = ? AND is_active = 1` reference check. -/
def assignedRefMissing (db : DB) (o : Option Nat) : Bool :=
  match o with
  | none => false
  | some uid => (findActiveUser db uid).isNone

/-- Whether the body's `category_id`, when present, fails the
`SELECT id FROM categories WHERE id = ?` reference check. -/
def categoryRefMissing (db : DB) (o : Option Nat) : Bool :=
  match o with
  | none => false
  | some cid => (findCategory db cid).isNone

/-- PUT /api/tasks/:id (tasks.js lines 249-350): existence check, `canEdit`
permission check, three reference checks, then the UPDATE. -/
def updateTask (db : DB) (a : Actor) (i : Nat) (b : TaskBody) : RouteResult × DB :=
  match findTask db i with
  | none => (.notFound, db)
  | some t =>
    if ¬ canEditTask db a t then (.forbidden, db)
    else if (findProject db b.project_id).isNone then (.badRequest, db)
    else if assignedRefMissing db b.assigned_to then (.badRequest, db)
    else if categoryRefMissing db b.category_id then (.badRequest, db)
    else
      (.ok, { db with
              tasks := db.tasks.map
                (fun t' => if t'.id == i then applyTaskUpdate t' b else t') })

def validTaskStatuses : List String :=
  ["todo", "in_progress", "review", "completed"]

/-- PATCH /api/tasks/:id/status (tasks.js lines 353-409): status whitelist
first, then existence, then `canEdit`. -/
def patchTaskStatus (db : DB) (a : Actor) (i : Nat) (s : String) : RouteResult × DB :=
  if ¬ validTaskStatuses.contains s then (.badRequest, db)
  else match findTask db i with
  | none => (.notFound, db)
  | some t =>
    if ¬ canEditTask db a t then (.forbidden, db)
    else
      (.ok, { db with
              tasks := db.tasks.map
                (fun t' => if t'.id == i then { t' with status := s } else t') })

/-- DELETE /api/tasks/:id (tasks.js lines 412-456). -/
def deleteTask (db : DB) (a : Actor) (i : Nat) : RouteResult × DB :=
  match findTask db i with
  | none => (.notFound, db)
  | some t =>
    if ¬ canDeleteTask db a t then (.forbidden, db)
    else (.ok, { db with tasks := db.tasks.filter (fun t' => !(t'.id == i)) })

/-- POST /api/tasks/:id/upload (tasks.js lines 459-540); `files` is the number
of uploaded files; the stored `task_files` rows are file-storage plumbing
(out of scope) and are not modelled, so the database is returned unchanged. -/
def uploadTaskFiles (db : DB) (a : Actor) (i : Nat) (files : Nat) : RouteResult × DB :=
  match findTask db i with
  | none => (.notFound, db)
  | some t =>
    if ¬ canEditTask db a t then (.forbidden, db)
    else if files == 0 then (.badRequest, db)
    else (.ok, db)

/-! ## Scoped reads (tasks.js GET routes, projects.js GET routes) -/

/-- The role filter appended for `role = user` on both the task list query
(tasks.js line 36) and the task by-id query (line 148); for admin/manager no
filter is appended. -/
def taskRowVisible (db : DB) (a : Actor) (t : TaskRow) : Bool :=
  !(a.role == .user) ||
    (t.assigned_to == some a.id || t.created_by == a.id ||
      taskProjectOwner db t == some a.id)

/-- GET /api/tasks with no query-string filters (pagination and search are out
of scope): the scoped result set. -/
def listTasks (db : DB) (a : Actor) : List TaskRow :=
  db.tasks.filter (fun t => taskRowVisible db a t)

/-- GET /api/tasks/:id — `WHERE t.id = ?` plus the same role filter; the route
404s when no row matches, otherwise returns `tasks[0]`. -/
def getTaskById (db : DB) (a : Actor) (i : Nat) : Option TaskRow :=
  (db.tasks.filter (fun t => t.id == i && taskRowVisible db a t)).head?

/-- The role filter on project queries (projects.js lines 33, 118):
`p.created_by = ? OR p.id IN (SELECT DISTINCT project_id FROM tasks WHERE
assigned_to = ?)`. -/
def projectRowVisible (db : DB) (a : Actor) (p : ProjectRow) : Bool :=
  !(a.role == .user) ||
    (p.created_by == a.id ||
      db.tasks.any (fun t => t.project_id == p.id && t.assigned_to == some a.id))

/-- GET /api/projects with no query-string filters. -/
def listProjects (db : DB) (a : Actor) : List ProjectRow :=
  db.projects.filter (fun p => projectRowVisible db a p)

/-- GET /api/projects/:id — `WHERE p.id = ?` plus the same role filter. -/
def getProjectById (db : DB) (a : Actor) (i : Nat) : Option ProjectRow :=
  (db.projects.filter (fun p => p.id == i && projectRowVisible db a p)).head?

/-! ## Project routes (src/routes/projects.js) -/

/-- Modelled from the spec: the `authorizeRoles(...)` middleware (its source
file `src/middleware/auth.js` is not part of the provided sources) refuses
with 403 any actor whose role is outside the allowed set, before the route
handler runs (spec section 4.2: project and category writes require
`role in admin|manager`). -/
def roleAllowed (allowed : List Role) (a : Actor) : Bool :=
  allowed.contains a.role

structure ProjectBody where
  name : String
  description : String
  status : String
  priority : String
  start_date : Option Nat
  end_date : Option Nat
  budget : Option Nat
deriving DecidableEq, Repr

/-- The column list of `UPDATE projects SET ...` (projects.js lines 205-210). -/
def applyProjectUpdate (p : ProjectRow) (b : ProjectBody) : ProjectRow :=
  { p with
    name := b.name
    description := b.description
    status := b.status
    priority := b.priority
    start_date := b.start_date
    end_date := b.end_date
    budget := b.budget }

/-- The check query of projects.js PUT/DELETE /:id (lines 188-194, 235-241):
`SELECT id, created_by FROM projects WHERE id = ?`, with `AND created_by = ?`
appended when the actor is a manager.  An empty result is reported as 404
"Project not found or access denied" for both a missing row and a
manager-foreign row. -/
def projectCheckRow (db : DB) (a : Actor) (i : Nat) : Option ProjectRow :=
  db.projects.find?
    (fun p => p.id == i && (!(a.role == .manager) || p.created_by == a.id))

/-- PUT /api/projects/:id (projects.js lines 182-227), including the
admin/manager role gate. -/
def updateProject (db : DB) (a : Actor) (i : Nat) (b : ProjectBody) : RouteResult × DB :=
  if ¬ roleAllowed [.admin, .manager] a then (.forbidden, db)
  else match projectCheckRow db a i with
  | none => (.notFound, db)
  | some _ =>
    (.ok, { db with
            projects := db.projects.map
              (fun p => if p.id == i then applyProjectUpdate p b else p) })

/-- `SELECT COUNT(*) FROM tasks WHERE project_id = ?` (projects.js line 253). -/
def projectTaskCount (db : DB) (i : Nat) : Nat :=
  (db.tasks.filter (fun t => t.project_id == i)).length

/-- DELETE /api/projects/:id (projects.js lines 230-271): role gate, the same
check query, then the existing-tasks guard (400), then the DELETE. -/
def deleteProject (db : DB) (a : Actor) (i : Nat) : RouteResult × DB :=
  if ¬ roleAllowed [.admin, .manager] a then (.forbidden, db)
  else match projectCheckRow db a i with
  | none => (.notFound, db)
  | some _ =>
    if projectTaskCount db i > 0 then (.badRequest, db)
    else (.ok, { db with projects := db.projects.filter (fun p => !(p.id == i)) })

/-! ## User routes (the users router concatenated into src/routes/projects.js) -/

structure UserBody where
  name : Option String
  email : Option String
  role : Option Role
deriving DecidableEq, Repr

/-- The dynamically built `UPDATE users SET ...` of the users router PUT /:id:
`name`/`email` when provided, `role` only when the caller is an admin. -/
def applyUserUpdate (u : UserRow) (b : UserBody) (callerIsAdmin : Bool) : UserRow :=
  { u with
    name := b.name.getD u.name
    email := b.email.getD u.email
    role := if callerIsAdmin then b.role.getD u.role else u.role }

/-- PUT /api/users/:id: the self-or-admin check and the role-change check run
before the existence lookup; "No valid updates provided" is 400.  A JS-falsy
provided field (empty string) is modelled as `none`. -/
def updateUser (db : DB) (a : Actor) (i : Nat) (b : UserBody) : RouteResult × DB :=
  if a.id ≠ i ∧ a.role ≠ .admin then (.forbidden, db)
  else if b.role.isSome ∧ a.role ≠ .admin then (.forbidden, db)
  else match findUser db i with
  | none => (.notFound, db)
  | some _ =>
    if b.name.isNone ∧ b.email.isNone ∧ ¬ (b.role.isSome ∧ a.role = .admin) then
      (.badRequest, db)
    else
      (.ok, { db with
              users := db.users.map
                (fun u => if u.id == i then applyUserUpdate u b (a.role == .admin) else u) })

/-- PATCH /api/users/:id/deactivate: admin role gate, then the self check
(400 "Cannot deactivate your own account"), then `UPDATE ... is_active = 0`
whose `affectedRows === 0` is reported as 404. -/
def deactivateUser (db : DB) (a : Actor) (i : Nat) : RouteResult × DB :=
  if ¬ roleAllowed [.admin] a then (.forbidden, db)
  else if a.id = i then (.badRequest, db)
  else if (findUser db i).isNone then (.notFound, db)
  else
    (.ok, { db with
            users := db.users.map
              (fun u => if u.id == i then { u with is_active := false } else u) })

/-- PATCH /api/users/:id/activate: admin role gate, then the UPDATE with its
`affectedRows === 0` 404 (no self check here). -/
def activateUser (db : DB) (a : Actor) (i : Nat) : RouteResult × DB :=
  if ¬ roleAllowed [.admin] a then (.forbidden, db)
  else if (findUser db i).isNone then (.notFound, db)
  else
    (.ok, { db with
            users := db.users.map
              (fun u => if u.id == i then { u with is_active := true } else u) })

/-- `SELECT COUNT(*) FROM projects WHERE created_by = ?` plus the task
counterpart (users router DELETE /:id guard). -/
def createdRowCount (db : DB) (i : Nat) : Nat :=
  (db.projects.filter (fun p => p.created_by == i)).length +
    (db.tasks.filter (fun t => t.created_by == i)).length

/-- DELETE /api/users/:id: admin role gate, self check (400), created
projects/tasks guard (400), then the DELETE whose `affectedRows === 0` is 404. -/
def deleteUser (db : DB) (a : Actor) (i : Nat) : RouteResult × DB :=
  if ¬ roleAllowed [.admin] a then (.forbidden, db)
  else if a.id = i then (.badRequest, db)
  else if createdRowCount db i > 0 then (.badRequest, db)
  else if (findUser db i).isNone then (.notFound, db)
  else (.ok, { db with users := db.users.filter (fun u => !(u.id == i)) })

/-! ## Category routes (src/routes/categories.js) -/

structure CategoryBody where
  name : String
  description : String
  color : String
deriving DecidableEq, Repr

/-- PUT /api/categories/:id (categories.js lines 102-135): admin/manager role
gate, existence check, then the UPDATE. -/
def updateCategory (db : DB) (a : Actor) (i : Nat) (b : CategoryBody) : RouteResult × DB :=
  if ¬ roleAllowed [.admin, .manager] a then (.forbidden, db)
  else match findCategory db i with
  | none => (.notFound, db)
  | some _ =>
    (.ok, { db with
            categories := db.categories.map
              (fun c => if c.id == i then
                { c with name := b.name, description := b.description, color := b.color }
                else c) })

/-- `SELECT COUNT(*) as count FROM tasks WHERE category_id = ?`
(categories.js line 152). -/
def categoryUsageCount (db : DB) (i : Nat) : Nat :=
  (db.tasks.filter (fun t => t.category_id == some i)).length

/-- DELETE /api/categories/:id (categories.js lines 138-170): role gate,
existence check, in-use guard (400), then the DELETE. -/
def deleteCategory (db : DB) (a : Actor) (i : Nat) : RouteResult × DB :=
  if ¬ roleAllowed [.admin, .manager] a then (.forbidden, db)
  else match findCategory db i with
  | none => (.notFound, db)
  | some _ =>
    if categoryUsageCount db i > 0 then (.badRequest, db)
    else (.ok, { db with categories := db.categories.filter (fun c => !(c.id == i)) })

/-! ## Token service (src/routes/auth.js; the verify middleware is modelled
from the spec) -/

/-- The claim set carried by a signed token: the access token of auth.js
line 85 carries `userId, email, role`; the refresh token of line 91 carries
only `userId`. -/
structure Claims where
  userId : Nat
  email : Option String
  role : Option Role
deriving DecidableEq, Repr

/-- A signed token.  The signature is modelled by recording which secret
signed the token: verification with secret `s` succeeds exactly on tokens
whose `sig` field is `s`, which captures unforgeability without modelling
cryptography. -/
structure Jwt where
  claims : Claims
  sig : Nat
  exp : Nat
deriving DecidableEq, Repr

inductive JwtError where
  | invalid
  | expired
deriving DecidableEq, Repr

/-- `jwt.sign(payload, secret, { expiresIn })`. -/
def jwtSign (c : Claims) (secret : Nat) (expAt : Nat) : Jwt :=
  ⟨c, secret, expAt⟩

/-- `jwt.verify(token, secret)` at time `now`: signature check, then expiry
(a token is expired from `exp` on). -/
def jwtVerify (tok : Jwt) (secret : Nat) (now : Nat) : Except JwtError Claims :=
  if tok.sig ≠ secret then .error .invalid
  else if tok.exp ≤ now then .error .expired
  else .ok tok.claims

/-- The refresh-token lifetime `'7d'` of auth.js line 94, in seconds. -/
def refreshTtl : Nat := 7 * 24 * 3600

/-- The token issuance of the login route (auth.js lines 84-95): the access
token is signed with `JWT_SECRET` and expires after the configured
`JWT_EXPIRES_IN`, the refresh token is signed with `REFRESH_TOKEN_SECRET`
and expires after 7 days. -/
def issueTokens (u : UserRow) (jwtSecret refreshSecret now accessTtl : Nat) : Jwt × Jwt :=
  (jwtSign ⟨u.id, some u.email, some u.role⟩ jwtSecret (now + accessTtl),
   jwtSign ⟨u.id, none, none⟩ refreshSecret (now + refreshTtl))

inductive AccessCheck where
  | ok (a : Actor)
  | invalidToken
  | expired
deriving DecidableEq, Repr

/-- Modelled from the spec: `verify_access` (spec section 4.1), implemented by
the `authenticateToken` middleware whose file `src/middleware/auth.js` is not
part of the provided sources.  Pure signature + expiry check against
`JWT_SECRET`, touching no storage; on success the actor is read off the
claims.  A token without a role claim cannot yield an actor and is rejected
as invalid. -/
def verify_access (tok : Jwt) (jwtSecret now : Nat) : AccessCheck :=
  match jwtVerify tok jwtSecret now with
  | .error .invalid => .invalidToken
  | .error .expired => .expired
  | .ok c =>
    match c.role with
    | some r => .ok ⟨c.userId, r⟩
    | none => .invalidToken

inductive RefreshResult where
  | ok (access : Jwt)
  | missingToken
  | invalidToken
deriving DecidableEq, Repr

/-- POST /api/auth/refresh (auth.js lines 125-164): verify the presented token
against `REFRESH_TOKEN_SECRET` (a thrown verification error is surfaced as a
401 by the error handler), then `SELECT id, email, role FROM users WHERE
id = ? AND is_active = 1`; an empty result is the 401 "Invalid refresh
token"; otherwise a fresh access token is minted with `JWT_SECRET`. -/
def refreshRoute (db : DB) (tok? : Option Jwt)
    (jwtSecret refreshSecret now accessTtl : Nat) : RefreshResult :=
  match tok? with
  | none => .missingToken
  | some tok =>
    match jwtVerify tok refreshSecret now with
    | .error _ => .invalidToken
    | .ok c =>
      match db.users.find? (fun u => u.id == c.userId && u.is_active) with
      | none => .invalidToken
      | some u =>
        .ok (jwtSign ⟨u.id, some u.email, some u.role⟩ jwtSecret (now + accessTtl))

/-! ## Helper lemmas -/

lemma canEditTask_eq_true_iff (db : DB) (a : Actor) (t : TaskRow) :
    canEditTask db a t = true ↔
      (a.role = Role.admin ∨ t.created_by = a.id ∨ t.assigned_to = some a.id ∨
        taskProjectOwner db t = some a.id) := by
  simp only [canEditTask, Bool.or_eq_true, beq_iff_eq]
  tauto

lemma canDeleteTask_eq_true_iff (db : DB) (a : Actor) (t : TaskRow) :
    canDeleteTask db a t = true ↔
      (a.role = Role.admin ∨ t.created_by = a.id ∨
        taskProjectOwner db t = some a.id) := by
  simp only [canDeleteTask, Bool.or_eq_true, beq_iff_eq]
  tauto

/-! ## Claim C1 -/

/-- Claim C1: for every actor and every existing task, the task mutations
follow the fixed decision table — update, status-change and upload are
allowed (pass the permission gate, i.e. do not end Forbidden) iff the actor
is admin or the actor's id is the task's `created_by`, its `assigned_to` or
the owning project's `created_by`; delete is allowed iff the actor is admin
or the actor's id is the task's `created_by` or the owning project's
`created_by`, so an actor who is only the assignee is Forbidden to delete. -/
theorem C1_task_decision_table
    (db : DB) (a : Actor) (i : Nat) (b : TaskBody) (s : String) (files : Nat)
    (t : TaskRow) (ht : findTask db i = some t) (hs : s ∈ validTaskStatuses) :
    ((updateTask db a i b).1 ≠ RouteResult.forbidden ↔
      (a.role = Role.admin ∨ t.created_by = a.id ∨ t.assigned_to = some a.id ∨
        taskProjectOwner db t = some a.id)) ∧
    ((patchTaskStatus db a i s).1 ≠ RouteResult.forbidden ↔
      (a.role = Role.admin ∨ t.created_by = a.id ∨ t.assigned_to = some a.id ∨
        taskProjectOwner db t = some a.id)) ∧
    ((uploadTaskFiles db a i files).1 ≠ RouteResult.forbidden ↔
      (a.role = Role.admin ∨ t.created_by = a.id ∨ t.assigned_to = some a.id ∨
        taskProjectOwner db t = some a.id)) ∧
    ((deleteTask db a i).1 ≠ RouteResult.forbidden ↔
      (a.role = Role.admin ∨ t.created_by = a.id ∨
        taskProjectOwner db t = some a.id)) := by
  have hs' : validTaskStatuses.contains s = true := by simpa using hs
  rw [← canEditTask_eq_true_iff db a t, ← canDeleteTask_eq_true_iff db a t]
  refine ⟨?_, ?_, ?_, ?_⟩
  · cases hc : canEditTask db a t with
    | false => simp [updateTask, ht, hc]
    | true =>
      simp only [updateTask, ht, hc]
      simp only [not_true, ite_false, if_false]
      split_ifs <;> simp
  · cases hc : canEditTask db a t with
    | false => simp [patchTaskStatus, hs', ht, hc, hs]
    | true =>
      simp [patchTaskStatus, hs', ht, hc, hs]
  · cases hc : canEditTask db a t with
    | false => simp [uploadTaskFiles, ht, hc]
    | true =>
      simp only [uploadTaskFiles, ht, hc]
      simp only [not_true, ite_false, if_false]
      split_ifs <;> simp
  · cases hc : canDeleteTask db a t with
    | false => simp [deleteTask, ht, hc]
    | true => simp [deleteTask, ht, hc]

/-- Witness for C1 at a concrete input: the assignee (id 20, role user) of
task 1, living in project 1 owned by user 10, passes the edit gate. -/
theorem C1_task_decision_table_witness :
    (updateTask
      ⟨[], [⟨1, "p", "", "active", "high", none, none, none, 10⟩],
        [⟨1, "t", "", 1, some 20, none, "todo", "medium", none, none, 30⟩], []⟩
      ⟨20, Role.user⟩ 1 ⟨"t2", "", 1, some 20, none, "todo", "low", none, none⟩).1 ≠
      RouteResult.forbidden :=
  (C1_task_decision_table
      ⟨[], [⟨1, "p", "", "active", "high", none, none, none, 10⟩],
        [⟨1, "t", "", 1, some 20, none, "todo", "medium", none, none, 30⟩], []⟩
      ⟨20, Role.user⟩ 1 ⟨"t2", "", 1, some 20, none, "todo", "low", none, none⟩
      "todo" 1
      ⟨1, "t", "", 1, some 20, none, "todo", "medium", none, none, 30⟩
      (by decide) (by decide)).1.mpr (by decide)

/-! ## Claim C2 -/

lemma filter_key_eq_of_nodup {α : Type} (key : α → Nat) (r : α → Bool) :
    ∀ (l : List α), (l.map key).Nodup → ∀ t ∈ l,
      l.filter (fun x => key x == key t && r x) = if r t then [t] else [] := by
  intro l
  induction l with
  | nil => intro _ t ht; simp at ht
  | cons a tl ih =>
    intro hnd t ht
    rw [List.map_cons, List.nodup_cons] at hnd
    obtain ⟨hka, hnd'⟩ := hnd
    rw [List.filter_cons]
    rcases List.mem_cons.mp ht with hta | htl
    · subst hta
      have htl0 : tl.filter (fun x => key x == key t && r x) = [] := by
        refine List.filter_eq_nil_iff.mpr ?_
        intro x hx
        have hne : key x ≠ key t := by
          intro he
          exact hka (he ▸ List.mem_map_of_mem key hx)
        simp [hne]
      by_cases hr : r t = true
      · simp [hr, htl0]
      · rw [Bool.not_eq_true] at hr
        simp [hr, htl0]
    · have hne : key a ≠ key t := by
        intro he
        exact hka (he ▸ List.mem_map_of_mem key htl)
      have hcond : (key a == key t && r a) = false := by simp [hne]
      simp only [hcond, Bool.false_eq_true, if_false]
      exact ih hnd' t htl

lemma getTaskById_eq (db : DB) (a : Actor) (hT : (db.tasks.map TaskRow.id).Nodup)
    (t : TaskRow) (ht : t ∈ db.tasks) :
    getTaskById db a t.id = if taskRowVisible db a t then some t else none := by
  unfold getTaskById
  rw [filter_key_eq_of_nodup TaskRow.id (fun x => taskRowVisible db a x) db.tasks hT t ht]
  by_cases hv : taskRowVisible db a t <;> simp [hv]

lemma getProjectById_eq (db : DB) (a : Actor)
    (hP : (db.projects.map ProjectRow.id).Nodup)
    (p : ProjectRow) (hp : p ∈ db.projects) :
    getProjectById db a p.id = if projectRowVisible db a p then some p else none := by
  unfold getProjectById
  rw [filter_key_eq_of_nodup ProjectRow.id (fun x => projectRowVisible db a x)
        db.projects hP p hp]
  by_cases hv : projectRowVisible db a p <;> simp [hv]

/-- Claim C2: for an actor with role user, a Project or Task row appears in
the scoped list exactly when a direct read-by-id of that row by the same
actor succeeds; the task condition both paths use is
`assigned_to = actor OR created_by = actor OR project.created_by = actor`,
the project condition is `created_by = actor OR the actor is assigned to
some task of the project`.  Row ids are assumed unique (primary keys). -/
theorem C2_scoping_matches_by_id (db : DB) (a : Actor) (ha : a.role = Role.user)
    (hT : (db.tasks.map TaskRow.id).Nodup)
    (hP : (db.projects.map ProjectRow.id).Nodup) :
    (∀ t ∈ db.tasks,
      taskRowVisible db a t =
        (t.assigned_to == some a.id || t.created_by == a.id ||
          taskProjectOwner db t == some a.id) ∧
      (t ∈ listTasks db a ↔ getTaskById db a t.id = some t)) ∧
    (∀ p ∈ db.projects,
      projectRowVisible db a p =
        (p.created_by == a.id ||
          db.tasks.any (fun tk => tk.project_id == p.id && tk.assigned_to == some a.id)) ∧
      (p ∈ listProjects db a ↔ getProjectById db a p.id = some p)) := by
  constructor
  · intro t ht
    constructor
    · simp [taskRowVisible, ha]
    · rw [getTaskById_eq db a hT t ht]
      unfold listTasks
      rw [List.mem_filter]
      by_cases hv : taskRowVisible db a t <;> simp [hv, ht]
  · intro p hp
    constructor
    · simp [projectRowVisible, ha]
    · rw [getProjectById_eq db a hP p hp]
      unfold listProjects
      rw [List.mem_filter]
      by_cases hv : projectRowVisible db a p <;> simp [hv, hp]

/-- Concrete database for the C2 witness: one project owned by user 10, one
task in it assigned to user 20. -/
def dbC2 : DB :=
  ⟨[], [⟨1, "p", "", "active", "high", none, none, none, 10⟩],
    [⟨1, "t", "", 1, some 20, none, "todo", "medium", none, none, 30⟩], []⟩

/-- Witness for C2: for the assignee (id 20, role user) the task row of
`dbC2` is list-visible exactly when its by-id read returns it. -/
theorem C2_scoping_matches_by_id_witness :
    (⟨1, "t", "", 1, some 20, none, "todo", "medium", none, none, 30⟩ : TaskRow) ∈
        listTasks dbC2 ⟨20, Role.user⟩ ↔
      getTaskById dbC2 ⟨20, Role.user⟩ 1 =
        some ⟨1, "t", "", 1, some 20, none, "todo", "medium", none, none, 30⟩ :=
  ((C2_scoping_matches_by_id dbC2 ⟨20, Role.user⟩ rfl (by decide) (by decide)).1
    ⟨1, "t", "", 1, some 20, none, "todo", "medium", none, none, 30⟩ (by decide)).2

/-! ## Claim C3 -/

lemma projectCheckRow_eq_none_of_absent (db : DB) (a : Actor) (i : Nat)
    (h : findProject db i = none) : projectCheckRow db a i = none := by
  unfold findProject at h
  unfold projectCheckRow
  rw [List.find?_eq_none] at h ⊢
  intro p hp
  have hni := h p hp
  simp only [beq_iff_eq] at hni
  simp [hni]

/-- Counterexample to C3 as stated: on an empty store, a user-role actor
updating the nonexistent user id 2 receives Forbidden, not NotFound — the
self-or-admin permission check of the users router runs before the
existence lookup. -/
theorem C3_counterexample :
    findUser ⟨[], [], [], []⟩ 2 = none ∧
    (updateUser ⟨[], [], [], []⟩ ⟨1, Role.user⟩ 2 ⟨none, none, none⟩).1 =
      RouteResult.forbidden := by decide

/-- Claim C3 (amended): for task writes by any actor, and for project and
category writes by an actor the admin/manager role gate admits, a
nonexistent target id yields NotFound (never Forbidden), existence being
checked before any permission evaluation; the exception the code makes is
user-targeted writes, where the self-or-admin check runs first, so a
non-admin actor targeting a nonexistent foreign user id receives
Forbidden. -/
theorem C3_amended_existence_before_permission
    (db : DB) (a : Actor) (i : Nat) (tb : TaskBody) (s : String) (files : Nat)
    (pb : ProjectBody) (cb : CategoryBody) (ub : UserBody) :
    (findTask db i = none →
      (updateTask db a i tb).1 = RouteResult.notFound ∧
      (s ∈ validTaskStatuses → (patchTaskStatus db a i s).1 = RouteResult.notFound) ∧
      (deleteTask db a i).1 = RouteResult.notFound ∧
      (uploadTaskFiles db a i files).1 = RouteResult.notFound) ∧
    (findProject db i = none → (a.role = Role.admin ∨ a.role = Role.manager) →
      (updateProject db a i pb).1 = RouteResult.notFound ∧
      (deleteProject db a i).1 = RouteResult.notFound) ∧
    (findCategory db i = none → (a.role = Role.admin ∨ a.role = Role.manager) →
      (updateCategory db a i cb).1 = RouteResult.notFound ∧
      (deleteCategory db a i).1 = RouteResult.notFound) ∧
    (a.id ≠ i → a.role ≠ Role.admin →
      (updateUser db a i ub).1 = RouteResult.forbidden) := by
  refine ⟨?_, ?_, ?_, ?_⟩
  · intro h
    refine ⟨?_, ?_, ?_, ?_⟩
    · simp [updateTask, h]
    · intro hs
      have hs' : validTaskStatuses.contains s = true := by simpa using hs
      simp [patchTaskStatus, h, hs, hs']
    · simp [deleteTask, h]
    · simp [uploadTaskFiles, h]
  · intro h hr
    have hra : roleAllowed [Role.admin, Role.manager] a = true := by
      rcases hr with h1 | h1 <;> simp [roleAllowed, h1]
    have hnone := projectCheckRow_eq_none_of_absent db a i h
    constructor
    · simp [updateProject, hra, hnone]
    · simp [deleteProject, hra, hnone]
  · intro h hr
    have hra : roleAllowed [Role.admin, Role.manager] a = true := by
      rcases hr with h1 | h1 <;> simp [roleAllowed, h1]
    constructor
    · simp [updateCategory, hra, h]
    · simp [deleteCategory, hra, h]
  · intro h1 h2
    simp [updateUser, h1, h2]

/-- Witness for the amended C3: on an empty store an admin updating task 1
gets NotFound. -/
theorem C3_amended_existence_before_permission_witness :
    (updateTask ⟨[], [], [], []⟩ ⟨1, Role.admin⟩ 1
      ⟨"t", "", 1, none, none, "todo", "low", none, none⟩).1 =
      RouteResult.notFound :=
  ((C3_amended_existence_before_permission ⟨[], [], [], []⟩ ⟨1, Role.admin⟩ 1
      ⟨"t", "", 1, none, none, "todo", "low", none, none⟩ "todo" 0
      ⟨"p", "", "active", "high", none, none, none⟩ ⟨"c", "", "red"⟩
      ⟨none, none, none⟩).1 (by decide)).1

/-! ## Claim C4 -/

/-- Counterexample to C4 as stated: project 1 exists (created by user 2), yet
manager 3 updating or deleting it receives the 404 NotFound response
("Project not found or access denied"), not a distinct Forbidden. -/
theorem C4_counterexample :
    findProject ⟨[], [⟨1, "p", "", "active", "high", none, none, none, 2⟩], [], []⟩ 1 =
      some ⟨1, "p", "", "active", "high", none, none, none, 2⟩ ∧
    (updateProject ⟨[], [⟨1, "p", "", "active", "high", none, none, none, 2⟩], [], []⟩
      ⟨3, Role.manager⟩ 1 ⟨"q", "", "active", "high", none, none, none⟩).1 =
      RouteResult.notFound ∧
    (updateProject ⟨[], [⟨1, "p", "", "active", "high", none, none, none, 2⟩], [], []⟩
      ⟨3, Role.manager⟩ 1 ⟨"q", "", "active", "high", none, none, none⟩).1 ≠
      RouteResult.forbidden ∧
    (deleteProject ⟨[], [⟨1, "p", "", "active", "high", none, none, none, 2⟩], [], []⟩
      ⟨3, Role.manager⟩ 1).1 = RouteResult.notFound := by decide

/-- Claim C4 (amended): a manager who did not create an existing project is
refused update and delete, but with the same NotFound outcome (404 "Project
not found or access denied") as a missing project, not a distinct Forbidden,
and the store is unchanged; the same manager updating a project they created
succeeds.  Project ids are assumed unique (primary keys). -/
theorem C4_amended_manager_ownership (db : DB) (a : Actor) (i : Nat)
    (b : ProjectBody) (p : ProjectRow)
    (hrole : a.role = Role.manager)
    (hnd : (db.projects.map ProjectRow.id).Nodup)
    (hp : findProject db i = some p) :
    (p.created_by ≠ a.id →
      updateProject db a i b = (RouteResult.notFound, db) ∧
      deleteProject db a i = (RouteResult.notFound, db)) ∧
    (p.created_by = a.id → (updateProject db a i b).1 = RouteResult.ok) := by
  have hmem : p ∈ db.projects := List.mem_of_find?_eq_some hp
  have hpid : p.id = i := by
    have := List.find?_some hp
    simpa using this
  have hra : roleAllowed [Role.admin, Role.manager] a = true := by
    simp [roleAllowed, hrole]
  constructor
  · intro hno
    have hnone : projectCheckRow db a i = none := by
      unfold projectCheckRow
      rw [List.find?_eq_none]
      intro q hq
      intro hcontra
      simp only [hrole, Bool.and_eq_true, Bool.or_eq_true, beq_iff_eq, beq_self_eq_true,
        Bool.not_true, Bool.false_or] at hcontra
      obtain ⟨hqi, hqc⟩ := hcontra
      have hqp : q = p :=
        List.inj_on_of_nodup_map hnd hq hmem (by rw [hqi, hpid])
      exact hno (hqp ▸ hqc)
    constructor
    · simp [updateProject, hra, hnone]
    · simp [deleteProject, hra, hnone]
  · intro hyes
    have hsome : (projectCheckRow db a i).isSome := by
      unfold projectCheckRow
      rw [List.find?_isSome]
      exact ⟨p, hmem, by simp [hrole, hpid, hyes]⟩
    obtain ⟨q, hq⟩ := Option.isSome_iff_exists.mp hsome
    simp [updateProject, hra, hq]

/-- Witness for the amended C4: manager 3 owns project 1, so their update
passes; manager 3 does not own project 2, so that update is the NotFound
refusal. -/
theorem C4_amended_manager_ownership_witness :
    (updateProject
      ⟨[], [⟨1, "p", "", "active", "high", none, none, none, 3⟩], [], []⟩
      ⟨3, Role.manager⟩ 1 ⟨"q", "", "active", "high", none, none, none⟩).1 =
      RouteResult.ok :=
  (C4_amended_manager_ownership
      ⟨[], [⟨1, "p", "", "active", "high", none, none, none, 3⟩], [], []⟩
      ⟨3, Role.manager⟩ 1 ⟨"q", "", "active", "high", none, none, none⟩
      ⟨1, "p", "", "active", "high", none, none, none, 3⟩
      rfl (by decide) (by decide)).2 rfl

/-! ## Claim C5 -/

/-- Claim C5: for a refresh token whose signature and expiry pass
verification, the refresh route mints a new access token exactly when the
token's subject still exists in the credential store with the active flag
true; when the subject was deleted or deactivated it returns the
invalid-token error and never a token, even though pure signature
verification accepted the token. -/
theorem C5_refresh_liveness (db : DB) (tok : Jwt)
    (jwtSecret refreshSecret now ttl : Nat) (c : Claims)
    (hv : jwtVerify tok refreshSecret now = .ok c) :
    ((∃ acc, refreshRoute db (some tok) jwtSecret refreshSecret now ttl =
        RefreshResult.ok acc) ↔
      ∃ u ∈ db.users, u.id = c.userId ∧ u.is_active = true) ∧
    ((¬ ∃ u ∈ db.users, u.id = c.userId ∧ u.is_active = true) →
      refreshRoute db (some tok) jwtSecret refreshSecret now ttl =
        RefreshResult.invalidToken) := by
  simp only [refreshRoute, hv]
  cases hfind : db.users.find? (fun u => u.id == c.userId && u.is_active) with
  | none =>
    have hnone := List.find?_eq_none.mp hfind
    constructor
    · constructor
      · rintro ⟨acc, hacc⟩
        exact absurd hacc (by simp)
      · rintro ⟨u, hu, hid, hact⟩
        exact absurd (by simp [hid, hact]) (hnone u hu)
    · intro _
      rfl
  | some u =>
    have hmem := List.mem_of_find?_eq_some hfind
    have hprop := List.find?_some hfind
    simp only [Bool.and_eq_true, beq_iff_eq] at hprop
    constructor
    · constructor
      · intro _
        exact ⟨u, hmem, hprop.1, hprop.2⟩
      · intro _
        exact ⟨_, rfl⟩
    · intro hno
      exact absurd ⟨u, hmem, hprop.1, hprop.2⟩ hno

/-- Witness for C5: user 7 is active, so the refresh with a validly signed
refresh token for subject 7 mints some access token. -/
theorem C5_refresh_liveness_witness :
    ∃ acc,
      refreshRoute ⟨[⟨7, "u", "u@x", "h", Role.user, true⟩], [], [], []⟩
        (some ⟨⟨7, none, none⟩, 5, 100⟩) 4 5 50 10 = RefreshResult.ok acc :=
  (C5_refresh_liveness ⟨[⟨7, "u", "u@x", "h", Role.user, true⟩], [], [], []⟩
      ⟨⟨7, none, none⟩, 5, 100⟩ 4 5 50 10 ⟨7, none, none⟩ rfl).1.mpr
    ⟨⟨7, "u", "u@x", "h", Role.user, true⟩, by decide, rfl, rfl⟩

/-! ## Claim C7 -/

/-- Claim C7: round trip of the token service — issuing tokens for a stored
user and verifying the access token with the access secret yields, at any
time strictly before `expires_at`, an actor with the same id and role as
issued; from `expires_at` on, verification yields Expired, not an actor. -/
theorem C7_issue_verify_roundtrip (u : UserRow)
    (jwtSecret refreshSecret now ttl t : Nat) :
    (t < now + ttl →
      verify_access (issueTokens u jwtSecret refreshSecret now ttl).1 jwtSecret t =
        AccessCheck.ok ⟨u.id, u.role⟩) ∧
    (now + ttl ≤ t →
      verify_access (issueTokens u jwtSecret refreshSecret now ttl).1 jwtSecret t =
        AccessCheck.expired) := by
  constructor
  · intro h
    simp [verify_access, issueTokens, jwtSign, jwtVerify, Nat.not_le.mpr h]
  · intro h
    simp [verify_access, issueTokens, jwtSign, jwtVerify, h]

/-- Witness for C7: tokens issued at time 100 with a 10-second window verify
to the issuing actor at time 105 and are expired at time 110. -/
theorem C7_issue_verify_roundtrip_witness :
    verify_access (issueTokens ⟨1, "u", "u@x", "h", Role.manager, true⟩ 4 5 100 10).1
        4 105 = AccessCheck.ok ⟨1, Role.manager⟩ ∧
    verify_access (issueTokens ⟨1, "u", "u@x", "h", Role.manager, true⟩ 4 5 100 10).1
        4 110 = AccessCheck.expired :=
  ⟨(C7_issue_verify_roundtrip ⟨1, "u", "u@x", "h", Role.manager, true⟩ 4 5 100 10 105).1
      (by decide),
   (C7_issue_verify_roundtrip ⟨1, "u", "u@x", "h", Role.manager, true⟩ 4 5 100 10 110).2
      (by decide)⟩

/-! ## Claim C9 -/

/-- Claim C9: with the two signing secrets distinct (as the deployment
requires), a refresh token presented where an access token is expected is
rejected as invalid, and an access token presented to the refresh operation
is rejected — the kinds are not interchangeable because they are signed and
verified with independent secrets. -/
theorem C9_token_kinds_not_interchangeable (db : DB) (u : UserRow)
    (jwtSecret refreshSecret now ttl t ttl2 : Nat)
    (hsec : jwtSecret ≠ refreshSecret) :
    verify_access (issueTokens u jwtSecret refreshSecret now ttl).2 jwtSecret t =
      AccessCheck.invalidToken ∧
    refreshRoute db (some (issueTokens u jwtSecret refreshSecret now ttl).1)
      jwtSecret refreshSecret t ttl2 = RefreshResult.invalidToken := by
  constructor
  · simp [verify_access, issueTokens, jwtSign, jwtVerify, Ne.symm hsec]
  · simp [refreshRoute, issueTokens, jwtSign, jwtVerify, hsec]

/-- Witness for C9 with distinct concrete secrets 4 and 5. -/
theorem C9_token_kinds_not_interchangeable_witness :
    verify_access (issueTokens ⟨1, "u", "u@x", "h", Role.user, true⟩ 4 5 100 10).2
        4 101 = AccessCheck.invalidToken ∧
    refreshRoute ⟨[], [], [], []⟩
      (some (issueTokens ⟨1, "u", "u@x", "h", Role.user, true⟩ 4 5 100 10).1)
      4 5 101 10 = RefreshResult.invalidToken :=
  C9_token_kinds_not_interchangeable ⟨[], [], [], []⟩
    ⟨1, "u", "u@x", "h", Role.user, true⟩ 4 5 100 10 101 10 (by decide)

/-! ## Claim C6 -/

/-- Counterexample to C6 as stated: an admin deactivating or deleting their
own account is refused with the 400 BadRequest response ("Cannot deactivate/
delete your own account"), not with Forbidden, and the store is unchanged. -/
theorem C6_counterexample :
    (deactivateUser ⟨[⟨1, "a", "a@x", "h", Role.admin, true⟩], [], [], []⟩
        ⟨1, Role.admin⟩ 1).1 = RouteResult.badRequest ∧
    (deactivateUser ⟨[⟨1, "a", "a@x", "h", Role.admin, true⟩], [], [], []⟩
        ⟨1, Role.admin⟩ 1).1 ≠ RouteResult.forbidden ∧
    (deleteUser ⟨[⟨1, "a", "a@x", "h", Role.admin, true⟩], [], [], []⟩
        ⟨1, Role.admin⟩ 1).1 = RouteResult.badRequest ∧
    (deleteUser ⟨[⟨1, "a", "a@x", "h", Role.admin, true⟩], [], [], []⟩
        ⟨1, Role.admin⟩ 1).1 ≠ RouteResult.forbidden := by decide

/-- Claim C6 (amended): an admin actor is never refused with Forbidden by any
modelled operation, regardless of ownership facts — admin short-circuits
every ownership check; the sole self-targeted restriction remains, but an
admin invoking deactivate or delete on their own id is refused with a 400
BadRequest (not Forbidden), the account left unchanged. -/
theorem C6_admin_override (db : DB) (a : Actor) (i : Nat) (tb : TaskBody)
    (s : String) (files : Nat) (pb : ProjectBody) (cb : CategoryBody)
    (ub : UserBody) (ha : a.role = Role.admin) :
    (updateTask db a i tb).1 ≠ RouteResult.forbidden ∧
    (patchTaskStatus db a i s).1 ≠ RouteResult.forbidden ∧
    (deleteTask db a i).1 ≠ RouteResult.forbidden ∧
    (uploadTaskFiles db a i files).1 ≠ RouteResult.forbidden ∧
    (updateProject db a i pb).1 ≠ RouteResult.forbidden ∧
    (deleteProject db a i).1 ≠ RouteResult.forbidden ∧
    (updateCategory db a i cb).1 ≠ RouteResult.forbidden ∧
    (deleteCategory db a i).1 ≠ RouteResult.forbidden ∧
    (updateUser db a i ub).1 ≠ RouteResult.forbidden ∧
    (deactivateUser db a i).1 ≠ RouteResult.forbidden ∧
    (activateUser db a i).1 ≠ RouteResult.forbidden ∧
    (deleteUser db a i).1 ≠ RouteResult.forbidden ∧
    deactivateUser db a a.id = (RouteResult.badRequest, db) ∧
    deleteUser db a a.id = (RouteResult.badRequest, db) := by
  have hra2 : roleAllowed [Role.admin, Role.manager] a = true := by
    simp [roleAllowed, ha]
  have hra1 : roleAllowed [Role.admin] a = true := by
    simp [roleAllowed, ha]
  refine ⟨?_, ?_, ?_, ?_, ?_, ?_, ?_, ?_, ?_, ?_, ?_, ?_, ?_, ?_⟩
  · cases hft : findTask db i with
    | none => simp [updateTask, hft]
    | some t =>
      have hc : canEditTask db a t = true := by simp [canEditTask, ha]
      simp only [updateTask, hft, hc, not_true, ite_false, if_false]
      split_ifs <;> simp_all
  · cases hft : findTask db i with
    | none =>
      simp only [patchTaskStatus, hft]
      split_ifs <;> simp
    | some t =>
      have hc : canEditTask db a t = true := by simp [canEditTask, ha]
      simp only [patchTaskStatus, hft, hc]
      split_ifs <;> simp_all
  · cases hft : findTask db i with
    | none => simp [deleteTask, hft]
    | some t =>
      have hc : canDeleteTask db a t = true := by simp [canDeleteTask, ha]
      simp [deleteTask, hft, hc]
  · cases hft : findTask db i with
    | none => simp [uploadTaskFiles, hft]
    | some t =>
      have hc : canEditTask db a t = true := by simp [canEditTask, ha]
      simp only [uploadTaskFiles, hft, hc, not_true, ite_false, if_false]
      split_ifs <;> simp_all
  · cases hpc : projectCheckRow db a i with
    | none => simp [updateProject, hra2, hpc]
    | some p => simp [updateProject, hra2, hpc]
  · cases hpc : projectCheckRow db a i with
    | none => simp [deleteProject, hra2, hpc]
    | some p =>
      simp only [deleteProject, hra2, hpc, not_true, ite_false, if_false]
      split_ifs <;> simp_all
  · cases hfc : findCategory db i with
    | none => simp [updateCategory, hra2, hfc]
    | some c => simp [updateCategory, hra2, hfc]
  · cases hfc : findCategory db i with
    | none => simp [deleteCategory, hra2, hfc]
    | some c =>
      simp only [deleteCategory, hra2, hfc, not_true, ite_false, if_false]
      split_ifs <;> simp_all
  · cases hfu : findUser db i with
    | none => simp [updateUser, ha, hfu]
    | some u =>
      simp only [updateUser, ha, hfu]
      split_ifs <;> simp_all
  · cases hfu : findUser db i with
    | none =>
      simp only [deactivateUser, hra1, hfu]
      split_ifs <;> simp_all
    | some u =>
      simp only [deactivateUser, hra1, hfu]
      split_ifs <;> simp_all
  · cases hfu : findUser db i with
    | none =>
      simp only [activateUser, hra1, hfu]
      split_ifs <;> simp_all
    | some u =>
      simp only [activateUser, hra1, hfu]
      split_ifs <;> simp_all
  · simp only [deleteUser, hra1]
    split_ifs <;> simp_all
  · simp [deactivateUser, hra1]
  · simp [deleteUser, hra1]

/-- Witness for the amended C6: admin 1 updating a task they have no
ownership relation to is not Forbidden, and deactivating themselves is the
BadRequest refusal leaving the store unchanged. -/
theorem C6_admin_override_witness :
    (updateTask
      ⟨[⟨1, "a", "a@x", "h", Role.admin, true⟩],
        [⟨1, "p", "", "active", "high", none, none, none, 10⟩],
        [⟨1, "t", "", 1, some 20, none, "todo", "medium", none, none, 30⟩], []⟩
      ⟨1, Role.admin⟩ 1 ⟨"t", "", 1, none, none, "todo", "low", none, none⟩).1 ≠
      RouteResult.forbidden ∧
    deactivateUser
      ⟨[⟨1, "a", "a@x", "h", Role.admin, true⟩],
        [⟨1, "p", "", "active", "high", none, none, none, 10⟩],
        [⟨1, "t", "", 1, some 20, none, "todo", "medium", none, none, 30⟩], []⟩
      ⟨1, Role.admin⟩ 1 =
      (RouteResult.badRequest,
        ⟨[⟨1, "a", "a@x", "h", Role.admin, true⟩],
          [⟨1, "p", "", "active", "high", none, none, none, 10⟩],
          [⟨1, "t", "", 1, some 20, none, "todo", "medium", none, none, 30⟩], []⟩) :=
  ⟨(C6_admin_override
      ⟨[⟨1, "a", "a@x", "h", Role.admin, true⟩],
        [⟨1, "p", "", "active", "high", none, none, none, 10⟩],
        [⟨1, "t", "", 1, some 20, none, "todo", "medium", none, none, 30⟩], []⟩
      ⟨1, Role.admin⟩ 1 ⟨"t", "", 1, none, none, "todo", "low", none, none⟩
      "todo" 1 ⟨"p", "", "active", "high", none, none, none⟩ ⟨"c", "", "red"⟩
      ⟨none, none, none⟩ rfl).1,
   (C6_admin_override
      ⟨[⟨1, "a", "a@x", "h", Role.admin, true⟩],
        [⟨1, "p", "", "active", "high", none, none, none, 10⟩],
        [⟨1, "t", "", 1, some 20, none, "todo", "medium", none, none, 30⟩], []⟩
      ⟨1, Role.admin⟩ 1 ⟨"t", "", 1, none, none, "todo", "low", none, none⟩
      "todo" 1 ⟨"p", "", "active", "high", none, none, none⟩ ⟨"c", "", "red"⟩
      ⟨none, none, none⟩ rfl).2.2.2.2.2.2.2.2.2.2.2.2.1⟩

/-! ## Claim C8 -/

/-- Claim C8: atomicity of the guarded task update — whenever the call does
not commit (NotFound, Forbidden, or a failed reference check on the
referenced project, assigned user or category), the stored state is exactly
as it was before the call: existence, permission and reference checks all
complete before the UPDATE statement runs. -/
theorem C8_update_task_atomicity (db : DB) (a : Actor) (i : Nat) (b : TaskBody)
    (h : (updateTask db a i b).1 ≠ RouteResult.ok) :
    (updateTask db a i b).2 = db := by
  have aux : (updateTask db a i b).1 = RouteResult.ok ∨ (updateTask db a i b).2 = db := by
    unfold updateTask
    cases hft : findTask db i with
    | none => exact Or.inr rfl
    | some t =>
      dsimp only
      split_ifs <;> first
        | exact Or.inl rfl
        | exact Or.inr rfl
  rcases aux with hok | hdb
  · exact absurd hok h
  · exact hdb

/-- Witness for C8: on the empty store the update ends NotFound and the
store is returned unchanged. -/
theorem C8_update_task_atomicity_witness :
    (updateTask ⟨[], [], [], []⟩ ⟨1, Role.admin⟩ 1
      ⟨"t", "", 1, none, none, "todo", "low", none, none⟩).2 = ⟨[], [], [], []⟩ :=
  C8_update_task_atomicity ⟨[], [], [], []⟩ ⟨1, Role.admin⟩ 1
    ⟨"t", "", 1, none, none, "todo", "low", none, none⟩ (by decide)

/-! ## Claim C10 -/

/-- Claim C10 (implicit in the code): referential-integrity guards on
deletes — deleting a project that still has tasks, a category still
referenced by a task, or a user who created any project or task, is refused
(400) with the store, hence the target row and its dependents, unchanged;
once permission is settled, the deletion commits exactly when the dependent
count is zero, and then only the target row is removed. -/
theorem C10_delete_referential_guards (db : DB) (a : Actor) (i : Nat)
    (ha : a.role = Role.admin) :
    (∀ p, findProject db i = some p →
      (0 < projectTaskCount db i →
        deleteProject db a i = (RouteResult.badRequest, db)) ∧
      (projectTaskCount db i = 0 →
        deleteProject db a i =
          (RouteResult.ok,
            { db with projects := db.projects.filter (fun q => !(q.id == i)) }))) ∧
    (∀ c, findCategory db i = some c →
      (0 < categoryUsageCount db i →
        deleteCategory db a i = (RouteResult.badRequest, db)) ∧
      (categoryUsageCount db i = 0 →
        deleteCategory db a i =
          (RouteResult.ok,
            { db with categories := db.categories.filter (fun q => !(q.id == i)) }))) ∧
    (a.id ≠ i → ∀ u, findUser db i = some u →
      (0 < createdRowCount db i →
        deleteUser db a i = (RouteResult.badRequest, db)) ∧
      (createdRowCount db i = 0 →
        deleteUser db a i =
          (RouteResult.ok,
            { db with users := db.users.filter (fun q => !(q.id == i)) }))) := by
  have hra2 : roleAllowed [Role.admin, Role.manager] a = true := by
    simp [roleAllowed, ha]
  have hra1 : roleAllowed [Role.admin] a = true := by
    simp [roleAllowed, ha]
  have hcheck : projectCheckRow db a i = findProject db i := by
    unfold projectCheckRow findProject
    congr 1
    funext q
    simp [ha]
  refine ⟨?_, ?_, ?_⟩
  · intro p hp
    constructor
    · intro hpos
      simp [deleteProject, hra2, hcheck, hp, hpos]
    · intro hzero
      simp [deleteProject, hra2, hcheck, hp, hzero]
  · intro c hc
    constructor
    · intro hpos
      simp [deleteCategory, hra2, hc, hpos]
    · intro hzero
      simp [deleteCategory, hra2, hc, hzero]
  · intro hne u hu
    constructor
    · intro hpos
      simp [deleteUser, hra1, hne, hu, hpos]
    · intro hzero
      simp [deleteUser, hra1, hne, hu, hzero]

/-- Concrete store for the C10 witness: project 1 still has a task, project 2
has none; admin 1 acts. -/
def dbC10 : DB :=
  ⟨[⟨1, "a", "a@x", "h", Role.admin, true⟩],
    [⟨1, "p1", "", "active", "high", none, none, none, 1⟩,
      ⟨2, "p2", "", "active", "low", none, none, none, 1⟩],
    [⟨1, "t", "", 1, none, none, "todo", "medium", none, none, 1⟩], []⟩

/-- Witness for C10: deleting project 1 (one dependent task) is the guarded
refusal with the store unchanged. -/
theorem C10_delete_referential_guards_witness :
    deleteProject dbC10 ⟨1, Role.admin⟩ 1 = (RouteResult.badRequest, dbC10) :=
  ((C10_delete_referential_guards dbC10 ⟨1, Role.admin⟩ 1 rfl).1
    ⟨1, "p1", "", "active", "high", none, none, none, 1⟩ (by decide)).1 (by decide)
